import Mathlib

/-!
Verification of the media ingestion pipeline of the Tubely video-hosting
backend (learn-file-storage-s3-golang-starter).

The Go source is shallowly embedded: pure string / arithmetic helpers become
Lean functions; the two HTTP handlers become pure functions over an explicit
environment record whose fields model the outcomes of the external
collaborators (UUID parsing, JWT validation, metadata store, multipart form
parsing, scratch-file system, the ffprobe / ffmpeg external processes, the
object store and the presign client).  The result record of a handler captures
the HTTP status, the error message chosen at the failing exit, the scratch
files left on disk after all deferred removals ran, and which external writes
were attempted.

Go's `strings.Split` with a one-character separator is embedded as `goSplitChar`
on `List Char`; Go's truncating integer division is `Int.tdiv`.
-/

/-- Prepend a character onto the first part of a split result (the non-empty
branch of Go's split loop). -/
def consPart (c : Char) : List (List Char) → List (List Char)
  | part :: parts => (c :: part) :: parts
  | [] => [[c]]

/-- Go `strings.Split(s, sep)` for a single-character separator, on the
character list of the string.  Never returns `[]`; splitting the empty string
yields `[[]]`, matching Go. -/
def goSplitChar (sep : Char) : List Char → List (List Char)
  | [] => [[]]
  | c :: rest =>
    if c = sep then [] :: goSplitChar sep rest
    else consPart c (goSplitChar sep rest)

/-- Go `strings.Split(s, sep)` for a single-character separator, as strings. -/
def goSplit (s : String) (sep : Char) : List String :=
  (goSplitChar sep s.data).map String.mk

/-- The relevant fields of `database.Video` as used by the handlers:
`ID`, `UserID`, `ThumbnailURL` and `VideoURL` (IDs abstracted to `Nat`). -/
structure Video where
  id : Nat
  userID : Nat
  thumbnailURL : Option String
  videoURL : Option String
deriving DecidableEq

/-- The configuration fields of `apiConfig` read by the embedded code. -/
structure ApiConfig where
  s3Bucket : String
  assetsRoot : String
  port : String

/-- The alphabet of Go's `base64.RawURLEncoding` (RFC 4648 base64url). -/
def base64UrlAlphabet : List Char :=
  "ABCDEFGHIJKLMNOPQRSTUVWXYZabcdefghijklmnopqrstuvwxyz0123456789-_".data

/-- Character of the base64url alphabet at index `n` (indices used are < 64). -/
def base64UrlChar (n : Nat) : Char :=
  base64UrlAlphabet.getD n '_'

/-- Go `base64.RawURLEncoding.EncodeToString` on a byte list (bytes as `Nat`):
groups of three bytes map to four alphabet characters, a trailing group of one
or two bytes maps to two or three characters, and no padding is appended. -/
def base64RawUrlEncode : List Nat → List Char
  | [] => []
  | [b1] => [base64UrlChar (b1 / 4), base64UrlChar (b1 % 4 * 16)]
  | [b1, b2] =>
      [base64UrlChar (b1 / 4), base64UrlChar (b1 % 4 * 16 + b2 / 16),
       base64UrlChar (b2 % 16 * 4)]
  | b1 :: b2 :: b3 :: rest =>
      [base64UrlChar (b1 / 4), base64UrlChar (b1 % 4 * 16 + b2 / 16),
       base64UrlChar (b2 % 16 * 4 + b3 / 64), base64UrlChar (b3 % 64)]
      ++ base64RawUrlEncode rest

/-- Embeds `mediaTypeToExt` (assets.go): split the media type on `/`; if it does not
split into exactly two parts return `".bin"`, else `"." ++` the second part. -/
def mediaTypeToExt (mediaType : String) : String :=
  match goSplit mediaType '/' with
  | [_, second] => "." ++ second
  | _ => ".bin"

/-- Embeds `getAssetPath` (assets.go): a base64url encoding of 32 random bytes
(the bytes delivered by `crypto/rand` are the `randBytes` argument) followed by
the extension derived from the media type. -/
def getAssetPath (randBytes : List Nat) (mediaType : String) : String :=
  String.mk (base64RawUrlEncode randBytes) ++ mediaTypeToExt mediaType

/-- Go `filepath.Join(a, b)` for the clean, nonempty, separator-free segments
produced by this pipeline: `a ++ "/" ++ b`. -/
def filepathJoin (a b : String) : String :=
  a ++ "/" ++ b

/-- Embeds `getAssetURL` (assets.go). -/
def getAssetURL (cfg : ApiConfig) (assetPath : String) : String :=
  "http://localhost:" ++ cfg.port ++ "/assets/" ++ assetPath

/-- Embeds `getAssetDiskPath` (assets.go). -/
def getAssetDiskPath (cfg : ApiConfig) (assetPath : String) : String :=
  filepathJoin cfg.assetsRoot assetPath

/-- Embeds `getVideoAspectRatio` (handler_upload_video.go).  The argument models the
combined outcome of running ffprobe and JSON-decoding its stdout: an error, or
the decoded list of streams as (width, height) pairs.  Go's `16 * height / 9`
on `int` is truncating division, `Int.tdiv`. -/
def getVideoAspectRatio (probe : Except String (List (Int × Int))) :
    Except String String :=
  match probe with
  | Except.error e => Except.error e
  | Except.ok streams =>
    match streams with
    | [] => Except.error "no video streams found"
    | (width, height) :: _ =>
      if width = Int.tdiv (16 * height) 9 then Except.ok "16:9"
      else if height = Int.tdiv (16 * width) 9 then Except.ok "9:16"
      else Except.ok "other"

/-- The aspect-ratio switch of `handlerUploadVideo`: `"16:9"` selects the
`landscape` key prefix root, `"9:16"` selects `portrait`, anything else
selects `other`. -/
def aspectToDirectory (aspectRatio : String) : String :=
  match aspectRatio with
  | "16:9" => "landscape"
  | "9:16" => "portrait"
  | _ => "other"

/-- Model of one run of the external ffmpeg rewriter: whether `cmd.Run`
reported success, and whether it left an output file on disk (with its size).
`os.Stat` on the output succeeds exactly when the file exists. -/
structure FfmpegBehavior where
  runOk : Bool
  output : Option Nat

/-- Embeds `processVideoForFastStart` (handler_upload_video.go): the output path is
the input path with `".processing"` appended; a failed run is an error; a
missing output file is a stat error; a zero-byte output file is the
"processed file is empty" error; otherwise the output path is returned. -/
def processVideoForFastStart (ff : FfmpegBehavior) (inputFilePath : String) :
    Except String String :=
  let processedFilePath := inputFilePath ++ ".processing"
  if ff.runOk = false then
    Except.error "error processing video"
  else
    match ff.output with
    | none => Except.error "could not stat processed file"
    | some size =>
      if size = 0 then Except.error "processed file is empty"
      else Except.ok processedFilePath

/-- Embeds `generatePresignedURL` (handler_upload_video.go): the presign client is an
oracle from bucket and key to a URL or an error; a client error is wrapped
into the "failed to generate presigned URL" message.  `expireMinutes` models
the `expireTime` argument (always 5 at the call site). -/
def generatePresignedURL (presignClient : String → String → Except String String)
    (bucket key : String) (_expireMinutes : Nat) : Except String String :=
  match presignClient bucket key with
  | Except.error _ => Except.error "failed to generate presigned URL"
  | Except.ok u => Except.ok u

/-- Embeds `dbVideoToSignedVideo` (handler_upload_video.go).  Returns the (possibly
updated) record together with the error, mirroring Go's
`(database.Video, error)` pair.  A `nil` URL passes through; so does a URL
whose comma split has fewer than two parts (the `len(parts) < 2` check);
otherwise the first two parts are the bucket and key and a presigned URL
replaces the stored composite when presigning succeeds. -/
def dbVideoToSignedVideo (presignClient : String → String → Except String String)
    (video : Video) : Video × Option String :=
  match video.videoURL with
  | none => (video, none)
  | some vurl =>
    match goSplit vurl ',' with
    | bucket :: key :: _ =>
      match generatePresignedURL presignClient bucket key 5 with
      | Except.error e => (video, some e)
      | Except.ok presigned => ({ video with videoURL := some presigned }, none)
    | _ => (video, none)

/-- Environment of one `handlerUploadVideo` request: outcomes of every
external collaborator, in the order the handler consults them. -/
structure VideoUploadEnv where
  videoIDParse : Except String Nat
  bearerToken : Except String String
  validateJWT : Except String Nat
  getVideo : Except String Video
  formFile : Except String Unit
  parseMediaType : Except String String
  createTemp : Except String String
  copyOk : Bool
  seekOk : Bool
  ffprobe : Except String (List (Int × Int))
  ffmpeg : FfmpegBehavior
  openProcessedOk : Bool
  putObjectOk : Bool
  updateVideoOk : Bool
  presign : String → String → Except String String
  randBytes : List Nat

/-- Observable outcome of one `handlerUploadVideo` request. `scratchFiles` is
the set of transient files still on disk after the request (all deferred
removals included); `tempCreated` records whether the staged temporary file
was ever created; `putAttempted` records whether a PutObject call was issued;
`updateArg` is the record passed to the metadata-store update, if any;
`responseVideo` is the JSON body of a 200 response. -/
structure UploadVideoResult where
  status : Nat
  message : Option String
  tempCreated : Bool
  scratchFiles : List String
  putAttempted : Bool
  updateArg : Option Video
  responseVideo : Option Video
deriving DecidableEq

/-- Embeds `handlerUploadVideo` (handler_upload_video.go), step for step.  The two
`defer os.Remove` registrations are reflected in `scratchFiles`: the staged
temp file is removed on every exit after its creation; the processed file is
removed on every exit after `processVideoForFastStart` succeeded, but when
that function fails it was never registered, so an output file that ffmpeg
left behind (partial or zero-byte) survives the request. -/
def handlerUploadVideo (cfg : ApiConfig) (env : VideoUploadEnv) :
    UploadVideoResult :=
  match env.videoIDParse with
  | Except.error _ =>
    ⟨400, some "Invalid ID", false, [], false, none, none⟩
  | Except.ok _ =>
  match env.bearerToken with
  | Except.error _ =>
    ⟨401, some "Couldn't validate JWT", false, [], false, none, none⟩
  | Except.ok _ =>
  match env.validateJWT with
  | Except.error _ =>
    ⟨401, some "Couldn't validate JWT", false, [], false, none, none⟩
  | Except.ok userID =>
  match env.getVideo with
  | Except.error _ =>
    ⟨500, some "Couldn't find video", false, [], false, none, none⟩
  | Except.ok video =>
  if video.userID ≠ userID then
    ⟨401, some "Not authorized to update this video", false, [], false, none, none⟩
  else
  match env.formFile with
  | Except.error _ =>
    ⟨400, some "Unable to parse form file", false, [], false, none, none⟩
  | Except.ok _ =>
  match env.parseMediaType with
  | Except.error _ =>
    ⟨400, some "Invalid Content-Type", false, [], false, none, none⟩
  | Except.ok mediaType =>
  if mediaType ≠ "video/mp4" then
    ⟨400, some "Invalid file type, only MP4 is allowed", false, [], false, none, none⟩
  else
  match env.createTemp with
  | Except.error _ =>
    ⟨500, some "Could not create temp file", false, [], false, none, none⟩
  | Except.ok tempName =>
  if env.copyOk = false then
    ⟨500, some "Could not write file to disk", true, [], false, none, none⟩
  else
  if env.seekOk = false then
    ⟨500, some "Could not reset file pointer", true, [], false, none, none⟩
  else
  match getVideoAspectRatio env.ffprobe with
  | Except.error _ =>
    ⟨500, some "Error determining aspect ratio", true, [], false, none, none⟩
  | Except.ok aspectRatio =>
  let directory := aspectToDirectory aspectRatio
  let key := filepathJoin directory (getAssetPath env.randBytes mediaType)
  match processVideoForFastStart env.ffmpeg tempName with
  | Except.error _ =>
    ⟨500, some "Error processing video", true,
      if env.ffmpeg.output.isSome then [tempName ++ ".processing"] else [],
      false, none, none⟩
  | Except.ok _processedFilePath =>
  if env.openProcessedOk = false then
    ⟨500, some "Could not open processed file", true, [], false, none, none⟩
  else
  if env.putObjectOk = false then
    ⟨500, some "Error uploading file to S3", true, [], true, none, none⟩
  else
  let url := cfg.s3Bucket ++ "," ++ key
  let video1 := { video with videoURL := some url }
  if env.updateVideoOk = false then
    ⟨500, some "Couldn't update video", true, [], true, some video1, none⟩
  else
  let signedPair := dbVideoToSignedVideo env.presign video1
  if signedPair.2.isSome then
    ⟨500, some "Couldn't generate presigned URL", true, [], true, some video1, none⟩
  else
    ⟨200, none, true, [], true, some video1, some signedPair.1⟩

/-- Environment of one `handlerUploadThumbnail` request (the return value of
`r.ParseMultipartForm` is discarded by the handler and has no field here). -/
structure ThumbUploadEnv where
  videoIDParse : Except String Nat
  bearerToken : Except String String
  validateJWT : Except String Nat
  formFile : Except String Unit
  parseMediaType : Except String String
  createOk : Bool
  copyOk : Bool
  getVideo : Except String Video
  updateVideoOk : Bool
  randBytes : List Nat

/-- Observable outcome of one `handlerUploadThumbnail` request.
`fileCreated` / `fileWritten` record whether the local asset file was created
by `os.Create` and filled by `io.Copy` (it is never removed by the handler). -/
structure ThumbUploadResult where
  status : Nat
  message : Option String
  fileCreated : Bool
  fileWritten : Bool
  updateArg : Option Video
  responseVideo : Option Video
deriving DecidableEq

/-- Embeds `handlerUploadThumbnail` (the thumbnail handler), step for step.  Note
the order in the source: the asset file is created and written before the
video record is fetched and the ownership check runs. -/
def handlerUploadThumbnail (cfg : ApiConfig) (env : ThumbUploadEnv) :
    ThumbUploadResult :=
  match env.videoIDParse with
  | Except.error _ => ⟨400, some "Invalid ID", false, false, none, none⟩
  | Except.ok _ =>
  match env.bearerToken with
  | Except.error _ => ⟨401, some "Couldn't find JWT", false, false, none, none⟩
  | Except.ok _ =>
  match env.validateJWT with
  | Except.error _ => ⟨401, some "Couldn't validate JWT", false, false, none, none⟩
  | Except.ok userID =>
  match env.formFile with
  | Except.error _ => ⟨400, some "Unable to parse form file", false, false, none, none⟩
  | Except.ok _ =>
  match env.parseMediaType with
  | Except.error _ => ⟨400, some "Invalid Content-Type", false, false, none, none⟩
  | Except.ok mediaType =>
  if mediaType ≠ "image/jpeg" ∧ mediaType ≠ "image/png" then
    ⟨400, some "Invalid file type", false, false, none, none⟩
  else
  let assetPath := getAssetPath env.randBytes mediaType
  if env.createOk = false then
    ⟨500, some "Unable to create file on server", false, false, none, none⟩
  else
  if env.copyOk = false then
    ⟨500, some "Error saving file", true, false, none, none⟩
  else
  match env.getVideo with
  | Except.error _ => ⟨500, some "Couldn't find video", true, true, none, none⟩
  | Except.ok video =>
  if video.userID ≠ userID then
    ⟨401, some "Not authorized to update this video", true, true, none, none⟩
  else
  let url := getAssetURL cfg assetPath
  let video1 := { video with thumbnailURL := some url }
  if env.updateVideoOk = false then
    ⟨500, some "Couldn't update video", true, true, some video1, none⟩
  else
    ⟨200, none, true, true, some video1, some video1⟩


/-! ## Helper lemmas -/

instance {α β : Type} [DecidableEq α] [DecidableEq β] : DecidableEq (Except α β) :=
  fun x y =>
  match x, y with
  | Except.error a, Except.error b =>
    if h : a = b then Decidable.isTrue (h ▸ rfl)
    else Decidable.isFalse (fun hc => h (Except.error.inj hc))
  | Except.ok a, Except.ok b =>
    if h : a = b then Decidable.isTrue (h ▸ rfl)
    else Decidable.isFalse (fun hc => h (Except.ok.inj hc))
  | Except.error _, Except.ok _ => Decidable.isFalse (fun hc => Except.noConfusion hc)
  | Except.ok _, Except.error _ => Decidable.isFalse (fun hc => Except.noConfusion hc)

theorem goSplitChar_ne_nil (sep : Char) : ∀ s : List Char, goSplitChar sep s ≠ []
  | [] => by simp [goSplitChar]
  | c :: rest => by
    simp only [goSplitChar]
    by_cases hc : c = sep
    · simp [hc]
    · simp only [hc, if_false]
      cases h : goSplitChar sep rest with
      | nil => simp [consPart]
      | cons part parts => simp [consPart]

theorem goSplitChar_not_mem (sep : Char) :
    ∀ s : List Char, ∀ p ∈ goSplitChar sep s, sep ∉ p
  | [], p, hp => by
    simp only [goSplitChar, List.mem_singleton] at hp
    simp [hp]
  | c :: rest, p, hp => by
    simp only [goSplitChar] at hp
    by_cases hc : c = sep
    · rw [if_pos hc] at hp
      rcases List.mem_cons.mp hp with h | h
      · simp [h]
      · exact goSplitChar_not_mem sep rest p h
    · rw [if_neg hc] at hp
      cases hsplit : goSplitChar sep rest with
      | nil => exact absurd hsplit (goSplitChar_ne_nil sep rest)
      | cons part parts =>
        rw [hsplit] at hp
        simp only [consPart] at hp
        rcases List.mem_cons.mp hp with h | h
        · subst h
          intro hmem
          rcases List.mem_cons.mp hmem with h | h
          · exact hc h.symm
          · exact goSplitChar_not_mem sep rest part
              (hsplit ▸ List.mem_cons_self part parts) h
        · exact goSplitChar_not_mem sep rest p (hsplit ▸ List.mem_cons_of_mem part h)

theorem goSplitChar_of_not_mem (sep : Char) :
    ∀ s : List Char, sep ∉ s → goSplitChar sep s = [s]
  | [], _ => rfl
  | c :: rest, h => by
    have hc : ¬ c = sep := fun hcs => h (hcs ▸ List.mem_cons_self c rest)
    have hrest : sep ∉ rest := fun hm => h (List.mem_cons_of_mem c hm)
    simp only [goSplitChar, hc, if_false, goSplitChar_of_not_mem sep rest hrest, consPart]

theorem goSplitChar_append_sep (sep : Char) :
    ∀ a rest : List Char, sep ∉ a →
      goSplitChar sep (a ++ sep :: rest) = a :: goSplitChar sep rest
  | [], rest, _ => by simp [goSplitChar]
  | c :: a, rest, h => by
    have hc : ¬ c = sep := fun hcs => h (hcs ▸ List.mem_cons_self c a)
    have ha : sep ∉ a := fun hm => h (List.mem_cons_of_mem c hm)
    have ih := goSplitChar_append_sep sep a rest ha
    simp only [List.cons_append, goSplitChar, hc, if_false]
    show consPart c (goSplitChar sep (a ++ sep :: rest)) = (c :: a) :: goSplitChar sep rest
    rw [ih]
    rfl

/-- Splitting `bucket ++ "," ++ key` on the comma when neither side holds a
comma yields exactly the two parts. -/
theorem goSplit_comma (bucket key : String)
    (hb : ',' ∉ bucket.data) (hk : ',' ∉ key.data) :
    goSplit (bucket ++ "," ++ key) ',' = [bucket, key] := by
  unfold goSplit
  rw [String.data_append, String.data_append]
  have hcomma : ("," : String).data = [','] := rfl
  rw [hcomma, List.append_assoc, List.singleton_append]
  rw [goSplitChar_append_sep ',' bucket.data key.data hb]
  rw [goSplitChar_of_not_mem ',' key.data hk]
  rfl

theorem base64RawUrlEncode_length :
    ∀ l : List Nat, (base64RawUrlEncode l).length = (4 * l.length + 2) / 3
  | [] => rfl
  | [_] => by simp [base64RawUrlEncode]
  | [_, _] => by simp [base64RawUrlEncode]
  | _ :: _ :: _ :: rest => by
    have ih := base64RawUrlEncode_length rest
    simp only [base64RawUrlEncode, List.cons_append, List.length_append,
      List.length_cons, List.length_nil, ih]
    omega

theorem getD_mem_or_default (l : List Char) (d : Char) :
    ∀ n : Nat, l.getD n d ∈ l ∨ l.getD n d = d := by
  induction l with
  | nil => intro n; right; rfl
  | cons c cs ih =>
    intro n
    cases n with
    | zero => left; simp
    | succ m =>
      rcases ih m with h | h
      · left
        simp only [List.getD_cons_succ]
        exact List.mem_cons_of_mem c h
      · right
        simpa using h

theorem base64UrlChar_mem (n : Nat) : base64UrlChar n ∈ base64UrlAlphabet := by
  unfold base64UrlChar
  rcases getD_mem_or_default base64UrlAlphabet '_' n with h | h
  · exact h
  · rw [h]; decide

theorem base64RawUrlEncode_mem :
    ∀ l : List Nat, ∀ c ∈ base64RawUrlEncode l, c ∈ base64UrlAlphabet
  | [], c, hc => by simp [base64RawUrlEncode] at hc
  | [b1], c, hc => by
    simp only [base64RawUrlEncode, List.mem_cons, List.not_mem_nil, or_false] at hc
    rcases hc with h | h <;> exact h ▸ base64UrlChar_mem _
  | [b1, b2], c, hc => by
    simp only [base64RawUrlEncode, List.mem_cons, List.not_mem_nil, or_false] at hc
    rcases hc with h | h | h <;> exact h ▸ base64UrlChar_mem _
  | b1 :: b2 :: b3 :: rest, c, hc => by
    simp only [base64RawUrlEncode, List.cons_append, List.nil_append,
      List.mem_cons] at hc
    rcases hc with h | h | h | h | h
    · exact h ▸ base64UrlChar_mem _
    · exact h ▸ base64UrlChar_mem _
    · exact h ▸ base64UrlChar_mem _
    · exact h ▸ base64UrlChar_mem _
    · exact base64RawUrlEncode_mem rest c h

theorem slash_not_mem_base64 (l : List Nat) : '/' ∉ base64RawUrlEncode l := by
  intro h
  have := base64RawUrlEncode_mem l '/' h
  revert this
  decide

theorem comma_not_mem_base64 (l : List Nat) : ',' ∉ base64RawUrlEncode l := by
  intro h
  have := base64RawUrlEncode_mem l ',' h
  revert this
  decide

/-! ## C1: aspect-ratio classification -/

/-- C1 counterexample: the code classifies an 853x480 video as "16:9"
(because 16*480/9 truncates to 853), yet 853*9 is not 480*16, refuting the
claimed "wide if and only if w*9 == h*16". -/
theorem C1_counterexample :
    getVideoAspectRatio (Except.ok [((853 : Int), (480 : Int))]) = Except.ok "16:9"
    ∧ ¬ ((853 : Int) * 9 = (480 : Int) * 16) := by
  constructor
  · rfl
  · decide

/-- C1 amended: for a successful probe whose first stream is (w, h), the
classification is "16:9" (mapped to the landscape key prefix root) iff
w == 16*h/9 under Go's truncating integer division — which holds in
particular whenever w*9 == h*16 —, "9:16" (portrait) iff not wide and
h == 16*w/9, and "other" otherwise; 1920x1080 is wide, 1080x1920 is tall and
1000x1000 is other. -/
theorem C1_aspect_ratio_amended (w h : Int) (rest : List (Int × Int)) :
    (getVideoAspectRatio (Except.ok ((w, h) :: rest)) = Except.ok "16:9" ↔
      w = Int.tdiv (16 * h) 9)
    ∧ (getVideoAspectRatio (Except.ok ((w, h) :: rest)) = Except.ok "9:16" ↔
      (¬ w = Int.tdiv (16 * h) 9 ∧ h = Int.tdiv (16 * w) 9))
    ∧ (getVideoAspectRatio (Except.ok ((w, h) :: rest)) = Except.ok "other" ↔
      (¬ w = Int.tdiv (16 * h) 9 ∧ ¬ h = Int.tdiv (16 * w) 9))
    ∧ (w * 9 = h * 16 →
      getVideoAspectRatio (Except.ok ((w, h) :: rest)) = Except.ok "16:9")
    ∧ aspectToDirectory "16:9" = "landscape"
    ∧ aspectToDirectory "9:16" = "portrait"
    ∧ aspectToDirectory "other" = "other"
    ∧ getVideoAspectRatio (Except.ok [((1920 : Int), 1080)]) = Except.ok "16:9"
    ∧ getVideoAspectRatio (Except.ok [((1080 : Int), 1920)]) = Except.ok "9:16"
    ∧ getVideoAspectRatio (Except.ok [((1000 : Int), 1000)]) = Except.ok "other" := by
  have hne1 : Except.ok (ε := String) "16:9" ≠ Except.ok "9:16" := by
    intro hc; exact absurd (Except.ok.inj hc) (by decide)
  have hne2 : Except.ok (ε := String) "16:9" ≠ Except.ok "other" := by
    intro hc; exact absurd (Except.ok.inj hc) (by decide)
  have hne3 : Except.ok (ε := String) "9:16" ≠ Except.ok "other" := by
    intro hc; exact absurd (Except.ok.inj hc) (by decide)
  refine ⟨?_, ?_, ?_, ?_, rfl, rfl, rfl, rfl, rfl, rfl⟩
  · simp only [getVideoAspectRatio]
    split_ifs with h1 h2 <;> simp_all
  · simp only [getVideoAspectRatio]
    split_ifs with h1 h2 <;> simp_all
  · simp only [getVideoAspectRatio]
    split_ifs with h1 h2 <;> simp_all
  · intro hwh
    have h16 : 16 * h = 9 * w := by linarith
    have hdiv : Int.tdiv (16 * h) 9 = w := by
      rw [h16]
      exact Int.mul_tdiv_cancel_left w (by norm_num)
    simp [getVideoAspectRatio, hdiv]

/-- Witness for the amended C1 at 1920x1080. -/
theorem C1_aspect_ratio_amended_witness :
    getVideoAspectRatio (Except.ok [((1920 : Int), (1080 : Int))]) = Except.ok "16:9" :=
  (C1_aspect_ratio_amended 1920 1080 []).2.2.2.1 (by decide)

/-! ## C8 and C9: asset path generation -/

theorem goSplit_no_sep (s : String) (sep : Char) (p : String)
    (hp : p ∈ goSplit s sep) : sep ∉ p.data := by
  unfold goSplit at hp
  rcases List.mem_map.mp hp with ⟨q, hq, rfl⟩
  exact goSplitChar_not_mem sep s.data q hq

theorem slash_not_mem_ext (mediaType : String) : '/' ∉ (mediaTypeToExt mediaType).data := by
  rcases hsplit : goSplit mediaType '/' with _ | ⟨a, _ | ⟨b, _ | ⟨c, tail⟩⟩⟩
  · have h : mediaTypeToExt mediaType = ".bin" := by simp [mediaTypeToExt, hsplit]
    rw [h]; decide
  · have h : mediaTypeToExt mediaType = ".bin" := by simp [mediaTypeToExt, hsplit]
    rw [h]; decide
  · have hb : b ∈ goSplit mediaType '/' := by
      rw [hsplit]; exact List.mem_cons_of_mem a (List.mem_cons_self b [])
    have hbdata : '/' ∉ b.data := goSplit_no_sep mediaType '/' b hb
    have h : mediaTypeToExt mediaType = "." ++ b := by simp [mediaTypeToExt, hsplit]
    rw [h, String.data_append]
    intro hmem
    rcases List.mem_append.mp hmem with h1 | h1
    · revert h1; decide
    · exact hbdata h1
  · have h : mediaTypeToExt mediaType = ".bin" := by simp [mediaTypeToExt, hsplit]
    rw [h]; decide

/-- Modelled from the spec: a valid relative path segment is a nonempty file
name containing no path separator. -/
def validRelPathSegment (s : String) : Bool :=
  decide (s.data ≠ []) && decide ('/' ∉ s.data)

/-- C8: `mediaTypeToExt` yields "." followed by the subtype exactly when the
media type splits into two parts on "/", and ".bin" otherwise; the asset path
generated by `getAssetPath` carries exactly that extension. -/
theorem C8_media_type_to_ext (mediaType : String) :
    (∀ ty sub, goSplit mediaType '/' = [ty, sub] →
      mediaTypeToExt mediaType = "." ++ sub)
    ∧ ((goSplit mediaType '/').length ≠ 2 → mediaTypeToExt mediaType = ".bin")
    ∧ (∀ randBytes, getAssetPath randBytes mediaType =
        String.mk (base64RawUrlEncode randBytes) ++ mediaTypeToExt mediaType) := by
  refine ⟨?_, ?_, fun _ => rfl⟩
  · intro ty sub hsplit
    simp [mediaTypeToExt, hsplit]
  · intro hlen
    rcases hsplit : goSplit mediaType '/' with _ | ⟨a, _ | ⟨b, _ | ⟨c, tail⟩⟩⟩
    · simp [mediaTypeToExt, hsplit]
    · simp [mediaTypeToExt, hsplit]
    · rw [hsplit] at hlen
      simp at hlen
    · simp [mediaTypeToExt, hsplit]

/-- Witness for C8 on "image/png" (parseable) and "imagepng" (unparseable). -/
theorem C8_media_type_to_ext_witness :
    mediaTypeToExt "image/png" = ".png" ∧ mediaTypeToExt "imagepng" = ".bin" :=
  ⟨(C8_media_type_to_ext "image/png").1 "image" "png" (by rfl),
   (C8_media_type_to_ext "imagepng").2.1 (by decide)⟩

/-- C9: for 32 random bytes, `getAssetPath` is total and returns the
43-character unpadded base64url encoding of the 256 random bits followed by
the media-type-derived extension, and the result is a valid relative path
segment (nonempty, no path separator) for every media type string. -/
theorem C9_get_asset_path (randBytes : List Nat) (mediaType : String)
    (hlen : randBytes.length = 32) :
    getAssetPath randBytes mediaType =
      String.mk (base64RawUrlEncode randBytes) ++ mediaTypeToExt mediaType
    ∧ (String.mk (base64RawUrlEncode randBytes)).length = 43
    ∧ (∀ c ∈ base64RawUrlEncode randBytes, c ∈ base64UrlAlphabet)
    ∧ validRelPathSegment (getAssetPath randBytes mediaType) = true := by
  have h43 : (base64RawUrlEncode randBytes).length = 43 := by
    rw [base64RawUrlEncode_length, hlen]
  have hdata : (getAssetPath randBytes mediaType).data =
      base64RawUrlEncode randBytes ++ (mediaTypeToExt mediaType).data := by
    unfold getAssetPath
    rw [String.data_append]
  refine ⟨rfl, h43, base64RawUrlEncode_mem randBytes, ?_⟩
  unfold validRelPathSegment
  rw [hdata]
  simp only [Bool.and_eq_true, decide_eq_true_eq]
  constructor
  · intro hnil
    have : (base64RawUrlEncode randBytes ++ (mediaTypeToExt mediaType).data).length = 0 := by
      rw [hnil]; rfl
    rw [List.length_append, h43] at this
    omega
  · intro hmem
    rcases List.mem_append.mp hmem with h | h
    · exact slash_not_mem_base64 randBytes h
    · exact slash_not_mem_ext mediaType h

/-- Witness for C9 at 32 zero bytes and media type "video/mp4". -/
theorem C9_get_asset_path_witness :
    (String.mk (base64RawUrlEncode (List.replicate 32 0))).length = 43
    ∧ validRelPathSegment (getAssetPath (List.replicate 32 0) "video/mp4") = true :=
  ⟨(C9_get_asset_path (List.replicate 32 0) "video/mp4" (by decide)).2.1,
   (C9_get_asset_path (List.replicate 32 0) "video/mp4" (by decide)).2.2.2⟩

/-! ## C5 and C10: signed-video derivation -/

/-- C5 counterexample: the composite "b,k,extra" does not split into the two
expected parts (it has three), yet `dbVideoToSignedVideo` does not pass the
record through unchanged: it signs bucket "b" and key "k" and replaces the
URL field, refuting "only a well-formed bucket,key reference is replaced". -/
theorem C5_counterexample :
    (goSplit "b,k,extra" ',').length ≠ 2
    ∧ (dbVideoToSignedVideo (fun _ _ => Except.ok "SIGNED-URL")
        { id := 1, userID := 7, thumbnailURL := none,
          videoURL := some "b,k,extra" }).1.videoURL = some "SIGNED-URL"
    ∧ some "SIGNED-URL" ≠ some "b,k,extra" := by
  refine ⟨by decide, rfl, by decide⟩

/-- C5 amended: the record passes through unchanged when the URL field is
unset, and when the stored reference splits into fewer than two parts on the
comma (no comma at all); a reference splitting into two or more parts is
treated as well-formed, its first two parts are used as bucket and key, and
on presign success the URL field is replaced with the fresh presigned URL. -/
theorem C5_signed_video_amended
    (presign : String → String → Except String String) (video : Video) :
    (video.videoURL = none → dbVideoToSignedVideo presign video = (video, none))
    ∧ (∀ u, video.videoURL = some u → (goSplit u ',').length < 2 →
        dbVideoToSignedVideo presign video = (video, none))
    ∧ (∀ u bucket key rest, video.videoURL = some u →
        goSplit u ',' = bucket :: key :: rest →
        ∀ signed, presign bucket key = Except.ok signed →
          dbVideoToSignedVideo presign video =
            ({ video with videoURL := some signed }, none)) := by
  refine ⟨?_, ?_, ?_⟩
  · intro h
    simp [dbVideoToSignedVideo, h]
  · intro u hu hlen
    rcases hsplit : goSplit u ',' with _ | ⟨a, _ | ⟨b, tail⟩⟩
    · simp [dbVideoToSignedVideo, hu, hsplit]
    · simp [dbVideoToSignedVideo, hu, hsplit]
    · rw [hsplit] at hlen
      simp at hlen
      omega
  · intro u bucket key rest hu hsplit signed hsig
    simp [dbVideoToSignedVideo, hu, hsplit, generatePresignedURL, hsig]

/-- Witness for the amended C5: a comma-free reference passes through; a
two-part reference gets the fresh presigned URL. -/
theorem C5_signed_video_amended_witness :
    dbVideoToSignedVideo (fun _ _ => Except.ok "W")
      { id := 0, userID := 0, thumbnailURL := none, videoURL := some "nocomma" }
      = ({ id := 0, userID := 0, thumbnailURL := none, videoURL := some "nocomma" }, none)
    ∧ dbVideoToSignedVideo (fun _ _ => Except.ok "W")
      { id := 0, userID := 0, thumbnailURL := none, videoURL := some "b,k" }
      = ({ id := 0, userID := 0, thumbnailURL := none, videoURL := some "W" }, none) :=
  ⟨(C5_signed_video_amended (fun _ _ => Except.ok "W")
      { id := 0, userID := 0, thumbnailURL := none, videoURL := some "nocomma" }).2.1
      "nocomma" rfl (by decide),
   (C5_signed_video_amended (fun _ _ => Except.ok "W")
      { id := 0, userID := 0, thumbnailURL := none, videoURL := some "b,k" }).2.2
      "b,k" "b" "k" [] rfl (by rfl) "W" rfl⟩

/-- C10: for a record whose stored reference splits into bucket and key, a
presign-client failure makes `dbVideoToSignedVideo` return the original
record unchanged — the URL field still holds the stored composite — together
with the error. -/
theorem C10_presign_failure
    (presign : String → String → Except String String) (video : Video)
    (u bucket key : String) (rest : List String)
    (hu : video.videoURL = some u)
    (hsplit : goSplit u ',' = bucket :: key :: rest)
    (e : String) (herr : presign bucket key = Except.error e) :
    dbVideoToSignedVideo presign video = (video, some "failed to generate presigned URL")
    ∧ (dbVideoToSignedVideo presign video).1.videoURL = some u := by
  have h : dbVideoToSignedVideo presign video =
      (video, some "failed to generate presigned URL") := by
    simp [dbVideoToSignedVideo, hu, hsplit, generatePresignedURL, herr]
  exact ⟨h, by rw [h]; exact hu⟩

/-- Witness for C10 with a failing presign client on reference "b,k". -/
theorem C10_presign_failure_witness :
    dbVideoToSignedVideo (fun _ _ => Except.error "boom")
      { id := 0, userID := 0, thumbnailURL := none, videoURL := some "b,k" }
      = ({ id := 0, userID := 0, thumbnailURL := none, videoURL := some "b,k" },
          some "failed to generate presigned URL") :=
  (C10_presign_failure (fun _ _ => Except.error "boom")
    { id := 0, userID := 0, thumbnailURL := none, videoURL := some "b,k" }
    "b,k" "b" "k" [] rfl (by rfl) "boom" rfl).1

/-! ## C2, C3, C4: handler-level properties -/

theorem handlerUploadVideo_put_origin (cfg : ApiConfig) (env : VideoUploadEnv) :
    (handlerUploadVideo cfg env).putAttempted = true →
      ∃ t, env.createTemp = Except.ok t ∧
        ∃ p, processVideoForFastStart env.ffmpeg t = Except.ok p := by
  intro hput
  unfold handlerUploadVideo at hput
  repeat' split at hput
  all_goals (try simp at hput)
  all_goals exact ⟨_, by assumption, _, by assumption⟩

theorem handlerUploadVideo_scratch (cfg : ApiConfig) (env : VideoUploadEnv) :
    (handlerUploadVideo cfg env).scratchFiles = [] ∨
      ∃ t, env.createTemp = Except.ok t ∧
        (handlerUploadVideo cfg env).scratchFiles = [t ++ ".processing"] ∧
        env.ffmpeg.output.isSome = true ∧
        ∃ e, processVideoForFastStart env.ffmpeg t = Except.error e := by
  unfold handlerUploadVideo
  dsimp only
  repeat' split
  all_goals first
    | (left; rfl)
    | (right; aesop)

/-- A configuration value used for the concrete runs below. -/
def cfgC : ApiConfig :=
  { s3Bucket := "tubely-bucket", assetsRoot := "assets", port := "8091" }

/-- A video-upload environment in which every step up to the fast-start
rewrite succeeds and ffmpeg reports success but writes a zero-byte output
file. -/
def envEmptyOut : VideoUploadEnv :=
  { videoIDParse := Except.ok 1
    bearerToken := Except.ok "tok"
    validateJWT := Except.ok 7
    getVideo := Except.ok { id := 1, userID := 7, thumbnailURL := none, videoURL := none }
    formFile := Except.ok ()
    parseMediaType := Except.ok "video/mp4"
    createTemp := Except.ok "/tmp/tubely-upload.mp4"
    copyOk := true
    seekOk := true
    ffprobe := Except.ok [(1920, 1080)]
    ffmpeg := { runOk := true, output := some 0 }
    openProcessedOk := true
    putObjectOk := true
    updateVideoOk := true
    presign := fun _ _ => Except.ok "SIGNED"
    randBytes := List.replicate 32 0 }

/-- C2 counterexample: in the zero-byte-output run the request completes with
a processing failure while the rewriter's output file
"/tmp/tubely-upload.mp4.processing" is still on the filesystem — the deferred
removal of that file is registered only after `processVideoForFastStart`
succeeds, so a transcode failure leaks it. -/
theorem C2_counterexample :
    (handlerUploadVideo cfgC envEmptyOut).scratchFiles
      = ["/tmp/tubely-upload.mp4.processing"]
    ∧ (handlerUploadVideo cfgC envEmptyOut).status = 500 := by
  constructor
  · rfl
  · rfl

/-- C2 amended: the staged temporary file is absent after the request on
every exit path; the fast-start rewriter's output file is also absent on
every exit path except when `processVideoForFastStart` fails while ffmpeg
left an output file on disk (a failed run with partial output, or the
zero-byte-output case), in which case exactly that output file remains. -/
theorem C2_scratch_cleanup_amended (cfg : ApiConfig) (env : VideoUploadEnv) :
    (∀ t, env.createTemp = Except.ok t →
      t ∉ (handlerUploadVideo cfg env).scratchFiles)
    ∧ ((handlerUploadVideo cfg env).scratchFiles = [] ∨
      ∃ t, env.createTemp = Except.ok t ∧
        (handlerUploadVideo cfg env).scratchFiles = [t ++ ".processing"] ∧
        env.ffmpeg.output.isSome = true ∧
        ∃ e, processVideoForFastStart env.ffmpeg t = Except.error e) := by
  constructor
  · intro t ht hmem
    rcases handlerUploadVideo_scratch cfg env with h | ⟨t', ht', hscr, _, _⟩
    · rw [h] at hmem
      exact absurd hmem (List.not_mem_nil t)
    · rw [ht] at ht'
      cases Except.ok.inj ht'
      rw [hscr] at hmem
      have heq := List.mem_singleton.mp hmem
      have hlen := congrArg String.length heq
      rw [String.length_append] at hlen
      have h11 : (".processing" : String).length = 11 := rfl
      rw [h11] at hlen
      omega
  · exact handlerUploadVideo_scratch cfg env

/-- Witness for the amended C2: in the zero-byte-output run the staged
temporary file itself is not among the leftover files. -/
theorem C2_scratch_cleanup_amended_witness :
    "/tmp/tubely-upload.mp4" ∉ (handlerUploadVideo cfgC envEmptyOut).scratchFiles :=
  (C2_scratch_cleanup_amended cfgC envEmptyOut).1 "/tmp/tubely-upload.mp4" rfl

/-- A thumbnail-upload environment in which every step succeeds but the
authenticated user (2) is not the owner (7) of the target video. -/
def envThumbNonOwner : ThumbUploadEnv :=
  { videoIDParse := Except.ok 1
    bearerToken := Except.ok "tok"
    validateJWT := Except.ok 2
    formFile := Except.ok ()
    parseMediaType := Except.ok "image/png"
    createOk := true
    copyOk := true
    getVideo := Except.ok { id := 1, userID := 7, thumbnailURL := none, videoURL := none }
    updateVideoOk := true
    randBytes := List.replicate 32 0 }

/-- A video-upload environment in which the authenticated user (2) is not the
owner (7) of the target video. -/
def envVideoNonOwner : VideoUploadEnv :=
  { videoIDParse := Except.ok 1
    bearerToken := Except.ok "tok"
    validateJWT := Except.ok 2
    getVideo := Except.ok { id := 1, userID := 7, thumbnailURL := none, videoURL := none }
    formFile := Except.ok ()
    parseMediaType := Except.ok "video/mp4"
    createTemp := Except.ok "/tmp/tubely-upload.mp4"
    copyOk := true
    seekOk := true
    ffprobe := Except.ok [(1920, 1080)]
    ffmpeg := { runOk := true, output := some 1 }
    openProcessedOk := true
    putObjectOk := true
    updateVideoOk := true
    presign := fun _ _ => Except.ok "SIGNED"
    randBytes := List.replicate 32 0 }

/-- C3 counterexample: a non-owner thumbnail upload does terminate with a 401,
but only after the local asset file has been created and written — the
thumbnail handler runs `os.Create` and `io.Copy` before it fetches the video
record and checks ownership, refuting "before any filesystem side effect". -/
theorem C3_counterexample :
    (handlerUploadThumbnail cfgC envThumbNonOwner).status = 401
    ∧ (handlerUploadThumbnail cfgC envThumbNonOwner).fileCreated = true
    ∧ (handlerUploadThumbnail cfgC envThumbNonOwner).fileWritten = true := by
  refine ⟨rfl, rfl, rfl⟩

/-- C3 amended: a non-owner video upload terminates with a 401 before any
storage or filesystem side effect (no temp file created, no scratch file
left, no object-store or metadata write); a non-owner thumbnail upload also
terminates with a 401 and attempts no metadata-store write, but only after
the local asset file has been created and written. -/
theorem C3_owner_check_amended (cfg : ApiConfig) (envV : VideoUploadEnv)
    (envT : ThumbUploadEnv) (userID : Nat) (video : Video) :
    (∀ vid tok, envV.videoIDParse = Except.ok vid →
      envV.bearerToken = Except.ok tok →
      envV.validateJWT = Except.ok userID →
      envV.getVideo = Except.ok video →
      video.userID ≠ userID →
      handlerUploadVideo cfg envV =
        ⟨401, some "Not authorized to update this video", false, [], false, none, none⟩)
    ∧ (∀ vid tok mt, envT.videoIDParse = Except.ok vid →
      envT.bearerToken = Except.ok tok →
      envT.validateJWT = Except.ok userID →
      envT.formFile = Except.ok () →
      envT.parseMediaType = Except.ok mt →
      ¬ (mt ≠ "image/jpeg" ∧ mt ≠ "image/png") →
      envT.createOk = true →
      envT.copyOk = true →
      envT.getVideo = Except.ok video →
      video.userID ≠ userID →
      handlerUploadThumbnail cfg envT =
        ⟨401, some "Not authorized to update this video", true, true, none, none⟩) := by
  constructor
  · intro vid tok h1 h2 h3 h4 h5
    unfold handlerUploadVideo
    simp [h1, h2, h3, h4, h5]
  · intro vid tok mt h1 h2 h3 h4 h5 h6 h7 h8 h9 h10
    unfold handlerUploadThumbnail
    simp [h1, h2, h3, h4, h5, h6, h7, h8, h9, h10]

/-- Witness for the amended C3: the concrete non-owner video run exits 401
with no side effects, and the concrete non-owner thumbnail run exits 401
having created and written the local file without a metadata write. -/
theorem C3_owner_check_amended_witness :
    handlerUploadVideo cfgC envVideoNonOwner =
      ⟨401, some "Not authorized to update this video", false, [], false, none, none⟩
    ∧ handlerUploadThumbnail cfgC envThumbNonOwner =
      ⟨401, some "Not authorized to update this video", true, true, none, none⟩ :=
  ⟨(C3_owner_check_amended cfgC envVideoNonOwner envThumbNonOwner 2
      { id := 1, userID := 7, thumbnailURL := none, videoURL := none }).1
      1 "tok" rfl rfl rfl rfl (by decide),
   (C3_owner_check_amended cfgC envVideoNonOwner envThumbNonOwner 2
      { id := 1, userID := 7, thumbnailURL := none, videoURL := none }).2
      1 "tok" "image/png" rfl rfl rfl rfl rfl (by decide) rfl rfl rfl (by decide)⟩

/-- C4: whenever the fast-start rewriter's output file is missing or has size
zero, `processVideoForFastStart` returns an error on any input path (whatever
the external process reported); consequently no PutObject call is ever
attempted in such a request, and a request that reaches the transcode step
reports the processing failure as a 500 "Error processing video". -/
theorem C4_empty_processed_output (cfg : ApiConfig) (env : VideoUploadEnv)
    (hout : env.ffmpeg.output = none ∨ env.ffmpeg.output = some 0) :
    (∀ input, ∃ e, processVideoForFastStart env.ffmpeg input = Except.error e)
    ∧ (handlerUploadVideo cfg env).putAttempted = false
    ∧ (∀ vid tok userID video tempName ar,
        env.videoIDParse = Except.ok vid →
        env.bearerToken = Except.ok tok →
        env.validateJWT = Except.ok userID →
        env.getVideo = Except.ok video →
        video.userID = userID →
        env.formFile = Except.ok () →
        env.parseMediaType = Except.ok "video/mp4" →
        env.createTemp = Except.ok tempName →
        env.copyOk = true →
        env.seekOk = true →
        getVideoAspectRatio env.ffprobe = Except.ok ar →
        (handlerUploadVideo cfg env).status = 500
        ∧ (handlerUploadVideo cfg env).message = some "Error processing video") := by
  have herr : ∀ input, ∃ e, processVideoForFastStart env.ffmpeg input = Except.error e := by
    intro input
    rcases hout with h | h
    · cases hrun : env.ffmpeg.runOk
      · exact ⟨"error processing video", by simp [processVideoForFastStart, hrun]⟩
      · exact ⟨"could not stat processed file", by simp [processVideoForFastStart, hrun, h]⟩
    · cases hrun : env.ffmpeg.runOk
      · exact ⟨"error processing video", by simp [processVideoForFastStart, hrun]⟩
      · exact ⟨"processed file is empty", by simp [processVideoForFastStart, hrun, h]⟩
  refine ⟨herr, ?_, ?_⟩
  · cases hput : (handlerUploadVideo cfg env).putAttempted
    · rfl
    · obtain ⟨t, _, p, hp⟩ := handlerUploadVideo_put_origin cfg env hput
      obtain ⟨e, he⟩ := herr t
      rw [hp] at he
      exact absurd he (fun hc => Except.noConfusion hc)
  · intro vid tok userID video tempName ar h1 h2 h3 h4 h5 h6 h7 h8 h9 h10 h11
    obtain ⟨e, he⟩ := herr tempName
    unfold handlerUploadVideo
    simp [h1, h2, h3, h4, h5, h6, h7, h8, h9, h10, h11, he]

/-- Witness for C4 in the concrete zero-byte-output run. -/
theorem C4_empty_processed_output_witness :
    (handlerUploadVideo cfgC envEmptyOut).status = 500
    ∧ (handlerUploadVideo cfgC envEmptyOut).message = some "Error processing video" :=
  (C4_empty_processed_output cfgC envEmptyOut (Or.inr rfl)).2.2
    1 "tok" 7 { id := 1, userID := 7, thumbnailURL := none, videoURL := none }
    "/tmp/tubely-upload.mp4" "16:9" rfl rfl rfl rfl rfl rfl rfl rfl rfl rfl rfl

/-! ## C6: composite persisted, signed URL returned -/

theorem aspectToDirectory_cases (s : String) :
    aspectToDirectory s = "landscape" ∨ aspectToDirectory s = "portrait"
    ∨ aspectToDirectory s = "other" := by
  unfold aspectToDirectory
  split
  · left; rfl
  · right; left; rfl
  · right; right; rfl

/-- C6: in every successful video-upload run, the record passed to the
metadata-store update carries exactly the composite "<bucket>,<key>" in its
URL field (bucket from the configuration, key the directory-prefixed asset
path), and the 200 response body carries the same record with that field
re-derived into the presign client's fresh URL instead of the composite. -/
theorem C6_composite_and_signed (cfg : ApiConfig) (env : VideoUploadEnv)
    (vid userID : Nat) (tok : String) (video : Video)
    (tempName ar signedUrl : String) (sz : Nat)
    (h1 : env.videoIDParse = Except.ok vid)
    (h2 : env.bearerToken = Except.ok tok)
    (h3 : env.validateJWT = Except.ok userID)
    (h4 : env.getVideo = Except.ok video)
    (h5 : video.userID = userID)
    (h6 : env.formFile = Except.ok ())
    (h7 : env.parseMediaType = Except.ok "video/mp4")
    (h8 : env.createTemp = Except.ok tempName)
    (h9 : env.copyOk = true)
    (h10 : env.seekOk = true)
    (h11 : getVideoAspectRatio env.ffprobe = Except.ok ar)
    (h12 : env.ffmpeg.runOk = true)
    (h13 : env.ffmpeg.output = some sz)
    (h14 : sz ≠ 0)
    (h15 : env.openProcessedOk = true)
    (h16 : env.putObjectOk = true)
    (h17 : env.updateVideoOk = true)
    (hbucket : ',' ∉ cfg.s3Bucket.data)
    (h18 : env.presign cfg.s3Bucket
        (filepathJoin (aspectToDirectory ar) (getAssetPath env.randBytes "video/mp4"))
        = Except.ok signedUrl) :
    handlerUploadVideo cfg env =
      ⟨200, none, true, [], true,
        some { video with videoURL := some (cfg.s3Bucket ++ "," ++
          filepathJoin (aspectToDirectory ar) (getAssetPath env.randBytes "video/mp4")) },
        some { video with videoURL := some signedUrl }⟩ := by
  have hdir : ',' ∉ (aspectToDirectory ar).data := by
    rcases aspectToDirectory_cases ar with h | h | h <;> rw [h] <;> decide
  have hasset : ',' ∉ (getAssetPath env.randBytes "video/mp4").data := by
    unfold getAssetPath
    rw [String.data_append]
    intro hmem
    rcases List.mem_append.mp hmem with h | h
    · exact comma_not_mem_base64 env.randBytes h
    · have hext : mediaTypeToExt "video/mp4" = ".mp4" := rfl
      rw [hext] at h
      revert h
      decide
  have hkey : ',' ∉ (filepathJoin (aspectToDirectory ar)
      (getAssetPath env.randBytes "video/mp4")).data := by
    unfold filepathJoin
    rw [String.data_append, String.data_append]
    intro hmem
    rcases List.mem_append.mp hmem with h | h
    · rcases List.mem_append.mp h with h1 | h1
      · exact hdir h1
      · revert h1; decide
    · exact hasset h
  have hsplit := goSplit_comma cfg.s3Bucket
    (filepathJoin (aspectToDirectory ar) (getAssetPath env.randBytes "video/mp4"))
    hbucket hkey
  have hproc : processVideoForFastStart env.ffmpeg tempName =
      Except.ok (tempName ++ ".processing") := by
    simp [processVideoForFastStart, h12, h13, h14]
  have hdb : dbVideoToSignedVideo env.presign
      { video with videoURL := some (cfg.s3Bucket ++ "," ++
        filepathJoin (aspectToDirectory ar) (getAssetPath env.randBytes "video/mp4")) } =
      ({ video with videoURL := some signedUrl }, none) := by
    simp only [dbVideoToSignedVideo, hsplit, generatePresignedURL, h18]
  rw [h5] at hdb
  unfold handlerUploadVideo
  simp [h1, h2, h3, h4, h5, h6, h7, h8, h9, h10, h11, hproc, h15, h16, h17, hdb]

/-- A video-upload environment in which every pipeline step succeeds. -/
def envSuccess : VideoUploadEnv :=
  { videoIDParse := Except.ok 1
    bearerToken := Except.ok "tok"
    validateJWT := Except.ok 7
    getVideo := Except.ok { id := 1, userID := 7, thumbnailURL := none, videoURL := none }
    formFile := Except.ok ()
    parseMediaType := Except.ok "video/mp4"
    createTemp := Except.ok "/tmp/tubely-upload.mp4"
    copyOk := true
    seekOk := true
    ffprobe := Except.ok [(1920, 1080)]
    ffmpeg := { runOk := true, output := some 1 }
    openProcessedOk := true
    putObjectOk := true
    updateVideoOk := true
    presign := fun _ _ => Except.ok "SIGNED"
    randBytes := List.replicate 32 0 }

/-- The composite reference persisted by the successful concrete run. -/
def compositeURL : String :=
  cfgC.s3Bucket ++ "," ++
    filepathJoin (aspectToDirectory "16:9") (getAssetPath envSuccess.randBytes "video/mp4")

/-- Witness for C6 in a fully successful concrete run. -/
theorem C6_composite_and_signed_witness :
    handlerUploadVideo cfgC envSuccess =
      ⟨200, none, true, [], true,
        some { id := 1, userID := 7, thumbnailURL := none, videoURL := some compositeURL },
        some { id := 1, userID := 7, thumbnailURL := none, videoURL := some "SIGNED" }⟩ :=
  C6_composite_and_signed cfgC envSuccess 1 7 "tok"
    { id := 1, userID := 7, thumbnailURL := none, videoURL := none }
    "/tmp/tubely-upload.mp4" "16:9" "SIGNED" 1
    rfl rfl rfl rfl rfl rfl rfl rfl rfl rfl rfl rfl rfl (by decide) rfl rfl rfl
    (by decide) rfl

/-! ## C7: status taxonomy -/

theorem handlerUploadVideo_status_taxonomy (cfg : ApiConfig) (env : VideoUploadEnv) :
    ((handlerUploadVideo cfg env).status = 400 ↔
      (handlerUploadVideo cfg env).message ∈
        [some "Invalid ID", some "Unable to parse form file",
         some "Invalid Content-Type", some "Invalid file type, only MP4 is allowed"])
    ∧ ((handlerUploadVideo cfg env).status = 401 ↔
      (handlerUploadVideo cfg env).message ∈
        [some "Couldn't validate JWT", some "Not authorized to update this video"])
    ∧ ((handlerUploadVideo cfg env).status = 500 ↔
      (handlerUploadVideo cfg env).message ∈
        [some "Couldn't find video", some "Could not create temp file",
         some "Could not write file to disk", some "Could not reset file pointer",
         some "Error determining aspect ratio", some "Error processing video",
         some "Could not open processed file", some "Error uploading file to S3",
         some "Couldn't update video", some "Couldn't generate presigned URL"])
    ∧ ((handlerUploadVideo cfg env).status = 200 ↔
      (handlerUploadVideo cfg env).message = none) := by
  unfold handlerUploadVideo
  dsimp only
  repeat' split
  all_goals simp

theorem handlerUploadThumbnail_status_taxonomy (cfg : ApiConfig) (env : ThumbUploadEnv) :
    ((handlerUploadThumbnail cfg env).status = 400 ↔
      (handlerUploadThumbnail cfg env).message ∈
        [some "Invalid ID", some "Unable to parse form file",
         some "Invalid Content-Type", some "Invalid file type"])
    ∧ ((handlerUploadThumbnail cfg env).status = 401 ↔
      (handlerUploadThumbnail cfg env).message ∈
        [some "Couldn't find JWT", some "Couldn't validate JWT",
         some "Not authorized to update this video"])
    ∧ ((handlerUploadThumbnail cfg env).status = 500 ↔
      (handlerUploadThumbnail cfg env).message ∈
        [some "Unable to create file on server", some "Error saving file",
         some "Couldn't find video", some "Couldn't update video"])
    ∧ ((handlerUploadThumbnail cfg env).status = 200 ↔
      (handlerUploadThumbnail cfg env).message = none) := by
  unfold handlerUploadThumbnail
  dsimp only
  repeat' split
  all_goals simp

/-- C7: in both upload handlers the response status follows the error
taxonomy exactly: the status is 400 precisely at the client-input failures
(malformed video ID, malformed form data, unparseable content type,
unacceptable media type), 401 precisely at the authentication and ownership
failures (missing or invalid token, wrong owner), 500 precisely at every
other failure (metadata lookup, staging, probe, transcode, object-store
upload, persistence, presigning), and 200 exactly on the success path. -/
theorem C7_status_taxonomy (cfg : ApiConfig) (envV : VideoUploadEnv)
    (envT : ThumbUploadEnv) :
    (((handlerUploadVideo cfg envV).status = 400 ↔
      (handlerUploadVideo cfg envV).message ∈
        [some "Invalid ID", some "Unable to parse form file",
         some "Invalid Content-Type", some "Invalid file type, only MP4 is allowed"])
    ∧ ((handlerUploadVideo cfg envV).status = 401 ↔
      (handlerUploadVideo cfg envV).message ∈
        [some "Couldn't validate JWT", some "Not authorized to update this video"])
    ∧ ((handlerUploadVideo cfg envV).status = 500 ↔
      (handlerUploadVideo cfg envV).message ∈
        [some "Couldn't find video", some "Could not create temp file",
         some "Could not write file to disk", some "Could not reset file pointer",
         some "Error determining aspect ratio", some "Error processing video",
         some "Could not open processed file", some "Error uploading file to S3",
         some "Couldn't update video", some "Couldn't generate presigned URL"])
    ∧ ((handlerUploadVideo cfg envV).status = 200 ↔
      (handlerUploadVideo cfg envV).message = none))
    ∧ (((handlerUploadThumbnail cfg envT).status = 400 ↔
      (handlerUploadThumbnail cfg envT).message ∈
        [some "Invalid ID", some "Unable to parse form file",
         some "Invalid Content-Type", some "Invalid file type"])
    ∧ ((handlerUploadThumbnail cfg envT).status = 401 ↔
      (handlerUploadThumbnail cfg envT).message ∈
        [some "Couldn't find JWT", some "Couldn't validate JWT",
         some "Not authorized to update this video"])
    ∧ ((handlerUploadThumbnail cfg envT).status = 500 ↔
      (handlerUploadThumbnail cfg envT).message ∈
        [some "Unable to create file on server", some "Error saving file",
         some "Couldn't find video", some "Couldn't update video"])
    ∧ ((handlerUploadThumbnail cfg envT).status = 200 ↔
      (handlerUploadThumbnail cfg envT).message = none)) :=
  ⟨handlerUploadVideo_status_taxonomy cfg envV,
   handlerUploadThumbnail_status_taxonomy cfg envT⟩
